import Mathlib

/-!
Shallow embedding of the goAzureKeyVault command-line tool (src/main.go) and
proofs about its configuration loader, credential cache and secret client.
External effects (environment variables, the .env file, the filesystem, the
identity provider and the secret store) are modelled as explicit inputs; the
functions below mirror the control flow of the corresponding Go functions.
-/

namespace GoAzureKeyVault

/-! ## Configuration loader: parseArgs (src/main.go lines 183-223) -/

/-- The eight environment variables read by parseArgs, as strings; an unset
variable is the empty string, exactly as os.Getenv reports it. -/
structure EnvVars where
  vaultBaseURL : String
  userSecretName : String
  userSecretVersion : String
  passwordSecretName : String
  passwordSecretVersion : String
  tenantID : String
  clientID : String
  clientSecret : String
deriving Repr, DecidableEq

/-- parseArgs from src/main.go: accumulates one "<NAME> missing" line per
failed emptiness check and returns the aggregated message, or none when the
message stayed empty. The fourth check mirrors src/main.go line 198, which
tests userSecretName (not passwordSecretName) before appending the
PASSWORD_SECRET_NAME line. -/
def parseArgs (e : EnvVars) : Option String :=
  let message := ""
  let message := if e.vaultBaseURL = "" then message ++ "VAULT_BASE_URL missing\n" else message
  let message := if e.userSecretName = "" then message ++ "USER_SECRET_NAME missing\n" else message
  let message := if e.userSecretVersion = "" then message ++ "USER_SECRET_VERSION missing\n" else message
  let message := if e.userSecretName = "" then message ++ "PASSWORD_SECRET_NAME missing\n" else message
  let message := if e.passwordSecretVersion = "" then message ++ "PASSWORD_SECRET_VERSION missing\n" else message
  let message := if e.tenantID = "" then message ++ "AZ_TENANT_ID missing\n" else message
  let message := if e.clientID = "" then message ++ "AZ_CLIENT_ID missing\n" else message
  let message := if e.clientSecret = "" then message ++ "AZ_CLIENT_SECRET missing\n" else message
  if message.length > 0 then
    some (message ++ "| need to be defined in .env or environment variable.")
  else
    none

/-! ## loadEnvVars (src/main.go lines 175-181) -/

/-- States of the local .env file, together with the error gotenv.Load
produces for each.  The error strings for the absent and unreadable cases
are the Go os.PathError renderings "open <path>: <errno message>". -/
inductive DotEnvState where
  /-- no .env file exists -/
  | absent
  /-- a .env file exists but opening it fails (e.g. a permission error) -/
  | unreadable
  /-- a .env file exists and opens, but parsing it fails with this message -/
  | malformed (msg : String)
  /-- a .env file exists and loads cleanly (or the variables come from the
  process environment alone) -/
  | wellFormed
deriving Repr, DecidableEq

/-- The error gotenv.Load returns in each state of the .env file. -/
def gotenvLoadError : DotEnvState → Option String
  | .absent => some "open .env: no such file or directory"
  | .unreadable => some "open .env: permission denied"
  | .malformed msg => some msg
  | .wellFormed => none

/-- strings.HasPrefix from the Go standard library: true when s begins
with p. -/
def strStartsWith (s p : String) : Bool :=
  p.data.isPrefixOf s.data

/-- loadEnvVars from src/main.go: calls gotenv.Load and suppresses any error
whose message starts with "open .env:". -/
def loadEnvVars (s : DotEnvState) : Option String :=
  match gotenvLoadError s with
  | some e => if strStartsWith e "open .env:" then none else some e
  | none => none

/-! ## Secret client: getSecret (src/main.go lines 85-92) -/

/-- The secret bundle returned by the vault SDK; only the Value field is used
by this program. Value is a Go pointer, so it can be nil (none here). -/
structure SecretBundle where
  value : Option String
deriving Repr, DecidableEq

/-- Observable result of running one Go call: a normal value, a returned
error, or a runtime panic. -/
inductive GoOutcome where
  | panicked
  | ok (v : String)
  | err (e : String)
deriving Repr, DecidableEq

/-- getSecret from src/main.go, as a function of the response of the
underlying cli.GetSecret call: on error it returns ("", err); on success it
dereferences secretBundle.Value with no nil check, so a nil Value is a
nil-pointer-dereference panic. -/
def getSecret (resp : Except String SecretBundle) : GoOutcome :=
  match resp with
  | .error e => .err e
  | .ok bundle =>
    match bundle.value with
    | none => .panicked
    | some v => .ok v

/-! ## Credential cache: tokens and the on-disk cache
(src/main.go lines 104-172) -/

/-- The adal token record as the program observes it: the bearer value and
the expiry instant, in seconds. adal's Token.IsExpired() is
!Expires().After(now), i.e. the token counts as expired exactly when
expiresOn ≤ now. -/
structure Token where
  accessToken : String
  expiresOn : Nat
deriving Repr, DecidableEq

/-- Token.IsExpired from the adal library: expired iff the expiry is not
strictly after the current time. -/
def Token.isExpired (t : Token) (now : Nat) : Bool :=
  decide (t.expiresOn ≤ now)

/-- The zero-valued adal.Token a freshly constructed service principal token
carries before any refresh. -/
def zeroToken : Token := ⟨"", 0⟩

/-- State of the cache file at cachePath, as the two filesystem probes of
tryLoadCachedToken observe it: os.Stat may report absence or fail some other
way, and adal.LoadToken may fail to read or deserialize the present file. -/
inductive CacheFileState where
  | absent
  | statError (msg : String)
  | loadError (msg : String)
  | valid (t : Token)
deriving Repr, DecidableEq

/-- tryLoadCachedToken from src/main.go lines 154-172: absence of the file is
reported as (none, no error); any other stat failure is returned as-is; a
LoadToken failure is wrapped with context. -/
def tryLoadCachedToken : CacheFileState → Except String (Option Token)
  | .absent => .ok none
  | .statError msg => .error msg
  | .loadError msg => .error ("Failed to load token from file: " ++ msg)
  | .valid t => .ok (some t)

/-- A service principal token holds the current raw token. -/
structure ServicePrincipalToken where
  token : Token
deriving Repr, DecidableEq

/-- A bearer authorizer wraps the service principal token it was built from
(autorest.NewBearerAuthorizer). -/
structure BearerAuthorizer where
  spt : ServicePrincipalToken
deriving Repr, DecidableEq

/-- The keyvault resource audience passed at both constructor call sites in
getKeyvaultAuthorizer. -/
def vaultResource : String := "https://vault.azure.net"

/-- adal.NewServicePrincipalTokenFromManualToken: pure construction from an
existing raw token; fails only on empty parameters, performs no network
call. -/
def newServicePrincipalTokenFromManualToken (clientID resource : String) (raw : Token) :
    Except String ServicePrincipalToken :=
  if clientID = "" then .error "parameter 'clientID' cannot be empty"
  else if resource = "" then .error "parameter 'resource' cannot be empty"
  else .ok ⟨raw⟩

/-- adal.NewServicePrincipalToken: pure construction carrying the zero token
until a refresh; fails only on empty parameters, performs no network call. -/
def newServicePrincipalToken (clientID secret resource : String) :
    Except String ServicePrincipalToken :=
  if clientID = "" then .error "parameter 'clientID' cannot be empty"
  else if secret = "" then .error "parameter 'secret' cannot be empty"
  else if resource = "" then .error "parameter 'resource' cannot be empty"
  else .ok ⟨zeroToken⟩

/-- The identity provider's answer to the one client-credentials token
request (spt.Refresh): either a granted token or a rejection (bad secret,
disabled principal, network error — all surface as a refresh error). -/
inductive TokenRequestResult where
  | granted (t : Token)
  | rejected (msg : String)
deriving Repr, DecidableEq

/-- spt.Refresh(): on grant the service principal token now carries the
granted token; on rejection it is unchanged and the error is returned. -/
def refresh (provider : TokenRequestResult) (spt : ServicePrincipalToken) :
    Option String × ServicePrincipalToken :=
  match provider with
  | .granted t => (none, ⟨t⟩)
  | .rejected msg => (some msg, spt)

/-- External circumstances of one getKeyvaultAuthorizer run: the clock, the
outcomes of the two pure setup steps, the cache file's state, the identity
provider's answer, and whether adal.SaveToken would succeed. -/
structure AuthEnv where
  now : Nat
  oauthConfigError : Option String
  urlParseError : Option String
  cacheFile : CacheFileState
  provider : TokenRequestResult
  saveError : Option String
deriving Repr, DecidableEq

/-- One adal.SaveToken invocation: target path, permission bits, token
serialized. -/
structure SaveCall where
  path : String
  mode : Nat
  token : Token
deriving Repr, DecidableEq

/-- Trace of one getKeyvaultAuthorizer run: its return value, how many
network token requests it made, the SaveToken calls it issued, and the
warnings it logged. -/
structure AuthRun where
  result : Except String BearerAuthorizer
  tokenRequests : Nat
  saveCalls : List SaveCall
  warnings : List String
deriving Repr

/-- filepath.Join("cache", clientID + ".token.json") as computed at
src/main.go line 117. -/
def cachePathFor (clientID : String) : String :=
  "cache/" ++ clientID ++ ".token.json"

/-- The warning logged when adal.SaveToken fails (src/main.go line 145). -/
def saveWarningsOf (cachePath : String) : Option String → List String
  | some e => ["Could not save token to cache path=" ++ cachePath ++ ": " ++ e]
  | none => []

/-- The else-branch of getKeyvaultAuthorizer (src/main.go lines 131-148): a
fresh service principal token is constructed, refreshed once against the
provider (the single network call; a refresh failure is only logged), and
the resulting raw token is saved to the cache (a save failure is only
logged); the authorizer is returned in every case the constructor
succeeds. -/
def acquireFreshToken (clientID clientSecret cachePath : String)
    (provider : TokenRequestResult) (saveError : Option String)
    (loadWarnings : List String) : AuthRun :=
  match newServicePrincipalToken clientID clientSecret vaultResource with
  | .error e => ⟨.error e, 0, [], loadWarnings⟩
  | .ok spt0 =>
    let refreshed := refresh provider spt0
    let spt := refreshed.2
    let refreshWarnings :=
      match refreshed.1 with
      | some e => ["Could not refresh token: " ++ e]
      | none => []
    ⟨.ok ⟨spt⟩, 1, [⟨cachePath, 0o600, spt.token⟩],
      loadWarnings ++ refreshWarnings ++ saveWarningsOf cachePath saveError⟩

/-- getKeyvaultAuthorizer from src/main.go lines 104-152. A cache-read
failure is degraded to a nil raw token with a warning (lines 119-122); a
loaded, unexpired token is wrapped without any network call (lines
125-130); otherwise the fresh-token branch runs. -/
def getKeyvaultAuthorizer (_tenantID clientID clientSecret : String) (env : AuthEnv) : AuthRun :=
  match env.oauthConfigError with
  | some e => ⟨.error ("Could not create oauthConfig: " ++ e), 0, [], []⟩
  | none =>
  match env.urlParseError with
  | some e => ⟨.error ("Could not parse the Authorize Endpoint URL: " ++ e), 0, [], []⟩
  | none =>
    let cachePath := cachePathFor clientID
    let loaded :=
      match tryLoadCachedToken env.cacheFile with
      | .error e => (none, ["Could not load Raw Token from file: " ++ e])
      | .ok r => (r, [])
    let rawToken : Option Token := loaded.1
    let loadWarnings : List String := loaded.2
    match rawToken with
    | some raw =>
      if raw.isExpired env.now then
        acquireFreshToken clientID clientSecret cachePath env.provider env.saveError loadWarnings
      else
        match newServicePrincipalTokenFromManualToken clientID vaultResource raw with
        | .error e => ⟨.error e, 0, [], loadWarnings⟩
        | .ok spt => ⟨.ok ⟨spt⟩, 0, [], loadWarnings⟩
    | none =>
      acquireFreshToken clientID clientSecret cachePath env.provider env.saveError loadWarnings

/-- The raw token getKeyvaultAuthorizer works with after the cache-read
step: a read failure has been degraded to none. -/
def loadedToken (env : AuthEnv) : Option Token :=
  match tryLoadCachedToken env.cacheFile with
  | .error _ => none
  | .ok r => r

/-- The warning getKeyvaultAuthorizer logs when the cache read fails
(src/main.go line 121), as a list: empty when the read succeeds. -/
def loadWarningsOf (env : AuthEnv) : List String :=
  match tryLoadCachedToken env.cacheFile with
  | .error e => ["Could not load Raw Token from file: " ++ e]
  | .ok _ => []

/-- The cache-miss condition of the run: no usable raw token, or an expired
one (the negation of the condition at src/main.go line 125). -/
def cacheMiss (env : AuthEnv) : Bool :=
  match loadedToken env with
  | none => true
  | some t => t.isExpired env.now

/-- The save calls of a run that actually reached the disk: none when
SaveToken fails (it writes through a temp file, so the previous cache file
survives a failure). -/
def savedFiles (env : AuthEnv) (run : AuthRun) : List SaveCall :=
  match env.saveError with
  | some _ => []
  | none => run.saveCalls

/-! ## Orchestrator: main (src/main.go lines 49-83) -/

/-- External circumstances of one run of main: the environment variables and
the responses of the four remote interactions (one token acquisition, three
secret fetches). -/
structure MainEnv where
  vars : EnvVars
  auth : AuthEnv
  userSecretResp : Except String SecretBundle
  passwordCurrentResp : Except String SecretBundle
  passwordVersionResp : Except String SecretBundle
deriving Repr

/-- Observable end of the process: a runtime panic, or an exit with a status
code and the fetch warnings logged along the way. -/
inductive ProcessResult where
  | panicked
  | exited (code : Nat) (warnings : List String)
deriving Repr, DecidableEq

/-- One getSecret call as main handles it: a returned error is logged as a
warning (log.Warnf) and execution continues; a panic aborts the process. -/
def fetchStep (name : String) (resp : Except String SecretBundle) : Option (List String) :=
  match getSecret resp with
  | .panicked => none
  | .ok _ => some []
  | .err e => some ["Error when trying to retrieve secret " ++ name ++ ". Error: " ++ e]

/-- main from src/main.go lines 49-83: a parseArgs failure or a
getKeysClient failure is log.Fatalf (exit status 1); each of the three
getSecret errors is a logged warning and execution continues; falling off
the end exits with status 0. -/
def mainRun (m : MainEnv) : ProcessResult :=
  match parseArgs m.vars with
  | some _ => .exited 1 []
  | none =>
    let authRun := getKeyvaultAuthorizer m.vars.tenantID m.vars.clientID m.vars.clientSecret m.auth
    match authRun.result with
    | .error _ => .exited 1 authRun.warnings
    | .ok _ =>
      match fetchStep m.vars.userSecretName m.userSecretResp with
      | none => .panicked
      | some w1 =>
        match fetchStep m.vars.passwordSecretName m.passwordCurrentResp with
        | none => .panicked
        | some w2 =>
          match fetchStep m.vars.passwordSecretName m.passwordVersionResp with
          | none => .panicked
          | some w3 =>
            .exited 0 (authRun.warnings ++ w1 ++ w2 ++ w3)

/-! ## Helper lemmas -/

lemma length_appendIf (c : Prop) [Decidable c] (m t : String) :
    (if c then m ++ t else m).length = m.length + (if c then t.length else 0) := by
  split <;> simp [String.length_append]

lemma newServicePrincipalToken_ok (clientID secret : String)
    (hcid : clientID ≠ "") (hsec : secret ≠ "") :
    newServicePrincipalToken clientID secret vaultResource =
      Except.ok ⟨zeroToken⟩ := by
  simp [newServicePrincipalToken, hcid, hsec, vaultResource]

lemma acquireFreshToken_granted (clientID clientSecret cachePath : String) (t : Token)
    (saveError : Option String) (lw : List String)
    (hcid : clientID ≠ "") (hsec : clientSecret ≠ "") :
    acquireFreshToken clientID clientSecret cachePath (.granted t) saveError lw =
      ⟨.ok ⟨⟨t⟩⟩, 1, [⟨cachePath, 0o600, t⟩],
        lw ++ saveWarningsOf cachePath saveError⟩ := by
  simp [acquireFreshToken, newServicePrincipalToken_ok clientID clientSecret hcid hsec, refresh]

lemma acquireFreshToken_rejected (clientID clientSecret cachePath msg : String)
    (saveError : Option String) (lw : List String)
    (hcid : clientID ≠ "") (hsec : clientSecret ≠ "") :
    acquireFreshToken clientID clientSecret cachePath (.rejected msg) saveError lw =
      ⟨.ok ⟨⟨zeroToken⟩⟩, 1, [⟨cachePath, 0o600, zeroToken⟩],
        lw ++ ["Could not refresh token: " ++ msg] ++ saveWarningsOf cachePath saveError⟩ := by
  simp [acquireFreshToken, newServicePrincipalToken_ok clientID clientSecret hcid hsec, refresh]

lemma acquireFreshToken_result_ignores_lw (clientID clientSecret cachePath : String)
    (provider : TokenRequestResult) (saveError : Option String) (lw lw' : List String) :
    (acquireFreshToken clientID clientSecret cachePath provider saveError lw).result =
      (acquireFreshToken clientID clientSecret cachePath provider saveError lw').result := by
  unfold acquireFreshToken
  cases newServicePrincipalToken clientID clientSecret vaultResource <;> simp

lemma acquireFreshToken_requests_ignores_lw (clientID clientSecret cachePath : String)
    (provider : TokenRequestResult) (saveError : Option String) (lw lw' : List String) :
    (acquireFreshToken clientID clientSecret cachePath provider saveError lw).tokenRequests =
      (acquireFreshToken clientID clientSecret cachePath provider saveError lw').tokenRequests := by
  unfold acquireFreshToken
  cases newServicePrincipalToken clientID clientSecret vaultResource <;> simp

lemma acquireFreshToken_keeps_lw (clientID clientSecret cachePath : String)
    (provider : TokenRequestResult) (saveError : Option String) (lw : List String)
    (w : String) (hw : w ∈ lw) :
    w ∈ (acquireFreshToken clientID clientSecret cachePath provider saveError lw).warnings := by
  unfold acquireFreshToken
  cases newServicePrincipalToken clientID clientSecret vaultResource <;>
    simp [List.mem_append, hw]

lemma acquireFreshToken_one_request (clientID clientSecret cachePath : String)
    (provider : TokenRequestResult) (saveError : Option String) (lw : List String)
    (hcid : clientID ≠ "") (hsec : clientSecret ≠ "") :
    (acquireFreshToken clientID clientSecret cachePath provider saveError lw).tokenRequests = 1 := by
  cases provider with
  | granted t => rw [acquireFreshToken_granted clientID clientSecret cachePath t saveError lw hcid hsec]
  | rejected msg => rw [acquireFreshToken_rejected clientID clientSecret cachePath msg saveError lw hcid hsec]

lemma getKeyvaultAuthorizer_miss_eq (tenantID clientID clientSecret : String) (env : AuthEnv)
    (hcfg : env.oauthConfigError = none) (hurl : env.urlParseError = none)
    (hmiss : cacheMiss env = true) :
    getKeyvaultAuthorizer tenantID clientID clientSecret env =
      acquireFreshToken clientID clientSecret (cachePathFor clientID) env.provider env.saveError
        (loadWarningsOf env) := by
  unfold getKeyvaultAuthorizer
  rw [hcfg, hurl]
  cases hc : env.cacheFile with
  | absent => simp [tryLoadCachedToken, loadWarningsOf, hc]
  | statError m => simp [tryLoadCachedToken, loadWarningsOf, hc]
  | loadError m => simp [tryLoadCachedToken, loadWarningsOf, hc]
  | valid t =>
    have hexp : t.isExpired env.now = true := by
      simpa [cacheMiss, loadedToken, tryLoadCachedToken, hc] using hmiss
    simp [tryLoadCachedToken, loadWarningsOf, hc, hexp]

/-! ## Claim theorems -/

/-- C1: whenever a cached token is successfully loaded from the cache path
and its expiry is strictly in the future, getKeyvaultAuthorizer performs no
network token request and returns a bearer authorizer constructed from that
cached token. -/
theorem acquire_cache_hit_no_network (tenantID clientID clientSecret : String)
    (env : AuthEnv) (t : Token)
    (hcfg : env.oauthConfigError = none) (hurl : env.urlParseError = none)
    (hcache : env.cacheFile = .valid t) (hfuture : env.now < t.expiresOn)
    (hcid : clientID ≠ "") :
    (getKeyvaultAuthorizer tenantID clientID clientSecret env).result = .ok ⟨⟨t⟩⟩ ∧
    (getKeyvaultAuthorizer tenantID clientID clientSecret env).tokenRequests = 0 := by
  have hexp : t.isExpired env.now = false := by
    simp [Token.isExpired]
    omega
  unfold getKeyvaultAuthorizer
  rw [hcfg, hurl]
  simp [tryLoadCachedToken, hcache, hexp, newServicePrincipalTokenFromManualToken, hcid,
    vaultResource]

/-- C1 witness: a concrete run with a cached token expiring at 20 and the
clock at 10 returns that token with zero network requests. -/
theorem acquire_cache_hit_no_network_witness :
    (getKeyvaultAuthorizer "tenant" "client" "secret"
      ⟨10, none, none, .valid ⟨"cached", 20⟩, .rejected "unused", none⟩).result =
        .ok ⟨⟨⟨"cached", 20⟩⟩⟩ ∧
    (getKeyvaultAuthorizer "tenant" "client" "secret"
      ⟨10, none, none, .valid ⟨"cached", 20⟩, .rejected "unused", none⟩).tokenRequests = 0 :=
  acquire_cache_hit_no_network "tenant" "client" "secret"
    ⟨10, none, none, .valid ⟨"cached", 20⟩, .rejected "unused", none⟩ ⟨"cached", 20⟩
    rfl rfl rfl (by decide) (by decide)

/-- C2: evaluation of parseArgs at the failing input. With
PASSWORD_SECRET_NAME empty and every other variable set, parseArgs returns
no error at all — its fourth check tests userSecretName instead of
passwordSecretName (src/main.go line 198), so the message never mentions
PASSWORD_SECRET_NAME in this situation. -/
theorem parseArgs_misses_empty_passwordSecretName :
    parseArgs ⟨"https://example.vault", "user", "v1", "", "v2", "tenant", "client", "secret"⟩ =
      none := by
  rfl

/-- C9 counterexample: for a .env file that is present but unreadable (its
open fails with "open .env: permission denied"), loadEnvVars returns no
error, contrary to the claim that a present-but-unreadable file is an
error. -/
theorem loadEnvVars_swallows_unreadable :
    loadEnvVars .unreadable = none := by
  rfl

/-- C9 amended: loadEnvVars returns no error when the .env file is absent
and surfaces the parse error of a present-but-malformed .env (whose message
does not begin with "open .env:"); but the open error of a
present-but-unreadable .env is also suppressed, because the suppression
tests the error-message prefix "open .env:" rather than the not-exist
condition, and a permission error on open carries that same prefix. -/
theorem loadEnvVars_open_errors_suppressed (msg : String)
    (hmsg : strStartsWith msg "open .env:" = false) :
    loadEnvVars .absent = none ∧
    loadEnvVars (.malformed msg) = some msg ∧
    loadEnvVars .unreadable = none ∧
    loadEnvVars .wellFormed = none := by
  refine ⟨rfl, ?_, rfl, rfl⟩
  simp [loadEnvVars, gotenvLoadError, hmsg]

/-- C9 amended witness: a dotenv parse error on line 1 is surfaced while the
absent and unreadable cases report nothing. -/
theorem loadEnvVars_open_errors_suppressed_witness :
    loadEnvVars .absent = none ∧
    loadEnvVars (.malformed "line 1: malformed line") = some "line 1: malformed line" ∧
    loadEnvVars .unreadable = none ∧
    loadEnvVars .wellFormed = none :=
  loadEnvVars_open_errors_suppressed "line 1: malformed line" (by decide)

/-- C10: getSecret dereferences the returned bundle's Value pointer without
a nil check: when the underlying GetSecret call succeeds but the value field
is absent, getSecret panics instead of returning an error; it returns the
value only under the precondition that the field is present. -/
theorem getSecret_nil_value_panics (bundle : SecretBundle) :
    (bundle.value = none → getSecret (Except.ok bundle) = .panicked) ∧
    (∀ v, bundle.value = some v → getSecret (Except.ok bundle) = .ok v) := by
  constructor
  · intro h
    simp [getSecret, h]
  · intro v h
    simp [getSecret, h]

/-- C10 witness: a successful response with an absent value field panics,
and one with a present value field returns it. -/
theorem getSecret_nil_value_panics_witness :
    getSecret (Except.ok ⟨none⟩) = .panicked ∧
    getSecret (Except.ok ⟨some "hunter2"⟩) = .ok "hunter2" :=
  ⟨(getSecret_nil_value_panics ⟨none⟩).1 rfl,
   (getSecret_nil_value_panics ⟨some "hunter2"⟩).2 "hunter2" rfl⟩

/-- C3 counterexample: a concrete cache-miss run whose token request the
identity provider rejects. getKeyvaultAuthorizer does not fail: it returns a
bearer authorizer (wrapping the never-refreshed zero token) with no error. -/
theorem acquire_rejected_counterexample :
    (getKeyvaultAuthorizer "tenant" "client" "secret"
      ⟨0, none, none, .absent, .rejected "invalid_client", none⟩).result =
      .ok ⟨⟨zeroToken⟩⟩ := by
  rfl

/-- C3 amended: on the cache-miss path an identity-provider rejection of the
token request is not fatal: the refresh failure is logged as a warning and
getKeyvaultAuthorizer still returns a bearer authorizer wrapping the
unrefreshed zero token; only the setup and constructor steps can make it
return an error. -/
theorem acquire_rejected_logs_and_returns (tenantID clientID clientSecret msg : String)
    (env : AuthEnv)
    (hcfg : env.oauthConfigError = none) (hurl : env.urlParseError = none)
    (hmiss : cacheMiss env = true) (hrej : env.provider = .rejected msg)
    (hcid : clientID ≠ "") (hsec : clientSecret ≠ "") :
    (getKeyvaultAuthorizer tenantID clientID clientSecret env).result = .ok ⟨⟨zeroToken⟩⟩ ∧
    ("Could not refresh token: " ++ msg) ∈
      (getKeyvaultAuthorizer tenantID clientID clientSecret env).warnings ∧
    (getKeyvaultAuthorizer tenantID clientID clientSecret env).tokenRequests = 1 := by
  rw [getKeyvaultAuthorizer_miss_eq tenantID clientID clientSecret env hcfg hurl hmiss, hrej,
    acquireFreshToken_rejected clientID clientSecret (cachePathFor clientID) msg env.saveError
      (loadWarningsOf env) hcid hsec]
  refine ⟨rfl, ?_, rfl⟩
  simp [List.mem_append]

/-- C3 amended witness: the concrete rejected run returns the zero-token
authorizer, logs the refresh warning, and made its one token request. -/
theorem acquire_rejected_logs_and_returns_witness :
    (getKeyvaultAuthorizer "tenant" "client" "secret"
      ⟨0, none, none, .absent, .rejected "invalid_client", none⟩).result = .ok ⟨⟨zeroToken⟩⟩ ∧
    ("Could not refresh token: " ++ "invalid_client") ∈
      (getKeyvaultAuthorizer "tenant" "client" "secret"
        ⟨0, none, none, .absent, .rejected "invalid_client", none⟩).warnings ∧
    (getKeyvaultAuthorizer "tenant" "client" "secret"
      ⟨0, none, none, .absent, .rejected "invalid_client", none⟩).tokenRequests = 1 :=
  acquire_rejected_logs_and_returns "tenant" "client" "secret" "invalid_client"
    ⟨0, none, none, .absent, .rejected "invalid_client", none⟩
    rfl rfl rfl rfl (by decide) (by decide)

/-- C4: a cache read problem never fails the acquisition: absence of the
file is a cache-miss with no error, any other read failure leaves the run
behaving exactly as if the file were absent except for a logged warning,
and the run proceeds to the token request. -/
theorem acquire_cache_read_problem_nonfatal (tenantID clientID clientSecret msg : String)
    (env : AuthEnv)
    (hcfg : env.oauthConfigError = none) (hurl : env.urlParseError = none)
    (hbad : env.cacheFile = .absent ∨ env.cacheFile = .statError msg ∨
      env.cacheFile = .loadError msg) :
    tryLoadCachedToken CacheFileState.absent = Except.ok none ∧
    (getKeyvaultAuthorizer tenantID clientID clientSecret env).result =
      (getKeyvaultAuthorizer tenantID clientID clientSecret
        { env with cacheFile := CacheFileState.absent }).result ∧
    (∀ w ∈ loadWarningsOf env,
      w ∈ (getKeyvaultAuthorizer tenantID clientID clientSecret env).warnings) ∧
    (clientID ≠ "" → clientSecret ≠ "" →
      (getKeyvaultAuthorizer tenantID clientID clientSecret env).tokenRequests = 1) := by
  have hmiss : cacheMiss env = true := by
    rcases hbad with h | h | h <;> simp [cacheMiss, loadedToken, tryLoadCachedToken, h]
  have h1 := getKeyvaultAuthorizer_miss_eq tenantID clientID clientSecret env hcfg hurl hmiss
  have h2 := getKeyvaultAuthorizer_miss_eq tenantID clientID clientSecret
    { env with cacheFile := CacheFileState.absent } (by simpa using hcfg) (by simpa using hurl)
    (by simp [cacheMiss, loadedToken, tryLoadCachedToken])
  refine ⟨rfl, ?_, ?_, ?_⟩
  · rw [h1, h2]
    exact acquireFreshToken_result_ignores_lw clientID clientSecret (cachePathFor clientID)
      env.provider env.saveError (loadWarningsOf env)
      (loadWarningsOf { env with cacheFile := CacheFileState.absent })
  · intro w hw
    rw [h1]
    exact acquireFreshToken_keeps_lw clientID clientSecret (cachePathFor clientID)
      env.provider env.saveError (loadWarningsOf env) w hw
  · intro hcid hsec
    rw [h1]
    exact acquireFreshToken_one_request clientID clientSecret (cachePathFor clientID)
      env.provider env.saveError (loadWarningsOf env) hcid hsec

/-- C4 witness: a run whose cache file stats with a permission error behaves
as a cache-miss, logs the load warning, and makes its one token request. -/
theorem acquire_cache_read_problem_nonfatal_witness :
    tryLoadCachedToken CacheFileState.absent = Except.ok none ∧
    (getKeyvaultAuthorizer "tenant" "client" "secret"
      ⟨0, none, none, .statError "permission denied", .granted ⟨"fresh", 100⟩, none⟩).result =
      (getKeyvaultAuthorizer "tenant" "client" "secret"
        { (⟨0, none, none, .statError "permission denied", .granted ⟨"fresh", 100⟩, none⟩ : AuthEnv)
          with cacheFile := CacheFileState.absent }).result ∧
    (∀ w ∈ loadWarningsOf
        ⟨0, none, none, .statError "permission denied", .granted ⟨"fresh", 100⟩, none⟩,
      w ∈ (getKeyvaultAuthorizer "tenant" "client" "secret"
        ⟨0, none, none, .statError "permission denied", .granted ⟨"fresh", 100⟩, none⟩).warnings) ∧
    ("client" ≠ "" → "secret" ≠ "" →
      (getKeyvaultAuthorizer "tenant" "client" "secret"
        ⟨0, none, none, .statError "permission denied", .granted ⟨"fresh", 100⟩,
          none⟩).tokenRequests = 1) :=
  acquire_cache_read_problem_nonfatal "tenant" "client" "secret" "permission denied"
    ⟨0, none, none, .statError "permission denied", .granted ⟨"fresh", 100⟩, none⟩
    rfl rfl (Or.inr (Or.inl rfl))

/-- C5: on a cache-miss (no file, corrupt file, or expired token) the run
makes exactly one token request and saves the granted token to
cache/(clientID).token.json with permission bits 0o600; when the save
succeeds that call is the file actually written, and the stored expiry is
in the future whenever the granted token's is. -/
theorem acquire_miss_single_request_and_cache_write (tenantID clientID clientSecret : String)
    (env : AuthEnv) (t : Token)
    (hcfg : env.oauthConfigError = none) (hurl : env.urlParseError = none)
    (hmiss : cacheMiss env = true) (hgrant : env.provider = .granted t)
    (hfresh : env.now < t.expiresOn)
    (hcid : clientID ≠ "") (hsec : clientSecret ≠ "") :
    (getKeyvaultAuthorizer tenantID clientID clientSecret env).tokenRequests = 1 ∧
    (getKeyvaultAuthorizer tenantID clientID clientSecret env).saveCalls =
      [⟨cachePathFor clientID, 0o600, t⟩] ∧
    (env.saveError = none →
      savedFiles env (getKeyvaultAuthorizer tenantID clientID clientSecret env) =
        [⟨cachePathFor clientID, 0o600, t⟩]) ∧
    (∀ c ∈ (getKeyvaultAuthorizer tenantID clientID clientSecret env).saveCalls,
      env.now < c.token.expiresOn) := by
  rw [getKeyvaultAuthorizer_miss_eq tenantID clientID clientSecret env hcfg hurl hmiss, hgrant,
    acquireFreshToken_granted clientID clientSecret (cachePathFor clientID) t env.saveError
      (loadWarningsOf env) hcid hsec]
  refine ⟨rfl, rfl, ?_, ?_⟩
  · intro hs
    simp [savedFiles, hs]
  · intro c hc
    simp only [List.mem_singleton] at hc
    subst hc
    exact hfresh

/-- C5 witness: a concrete run with no cache file and a granted token
expiring at 100 makes one request and saves that token at
cache/client.token.json with mode 0o600. -/
theorem acquire_miss_single_request_and_cache_write_witness :
    (getKeyvaultAuthorizer "tenant" "client" "secret"
      ⟨0, none, none, .absent, .granted ⟨"fresh", 100⟩, none⟩).tokenRequests = 1 ∧
    (getKeyvaultAuthorizer "tenant" "client" "secret"
      ⟨0, none, none, .absent, .granted ⟨"fresh", 100⟩, none⟩).saveCalls =
      [⟨cachePathFor "client", 0o600, ⟨"fresh", 100⟩⟩] ∧
    (none = (none : Option String) →
      savedFiles ⟨0, none, none, .absent, .granted ⟨"fresh", 100⟩, none⟩
        (getKeyvaultAuthorizer "tenant" "client" "secret"
          ⟨0, none, none, .absent, .granted ⟨"fresh", 100⟩, none⟩) =
        [⟨cachePathFor "client", 0o600, ⟨"fresh", 100⟩⟩]) ∧
    (∀ c ∈ (getKeyvaultAuthorizer "tenant" "client" "secret"
        ⟨0, none, none, .absent, .granted ⟨"fresh", 100⟩, none⟩).saveCalls,
      0 < c.token.expiresOn) :=
  acquire_miss_single_request_and_cache_write "tenant" "client" "secret"
    ⟨0, none, none, .absent, .granted ⟨"fresh", 100⟩, none⟩ ⟨"fresh", 100⟩
    rfl rfl rfl rfl (by decide) (by decide) (by decide)

/-- C6: on the cache-miss path, when the token request succeeds but the
subsequent cache write fails, the failure is logged as a warning and
getKeyvaultAuthorizer still returns the bearer authorizer wrapping the
granted in-memory token. -/
theorem acquire_save_failure_nonfatal (tenantID clientID clientSecret msg : String)
    (env : AuthEnv) (t : Token)
    (hcfg : env.oauthConfigError = none) (hurl : env.urlParseError = none)
    (hmiss : cacheMiss env = true) (hgrant : env.provider = .granted t)
    (hsave : env.saveError = some msg)
    (hcid : clientID ≠ "") (hsec : clientSecret ≠ "") :
    (getKeyvaultAuthorizer tenantID clientID clientSecret env).result = .ok ⟨⟨t⟩⟩ ∧
    ("Could not save token to cache path=" ++ cachePathFor clientID ++ ": " ++ msg) ∈
      (getKeyvaultAuthorizer tenantID clientID clientSecret env).warnings := by
  rw [getKeyvaultAuthorizer_miss_eq tenantID clientID clientSecret env hcfg hurl hmiss, hgrant,
    acquireFreshToken_granted clientID clientSecret (cachePathFor clientID) t env.saveError
      (loadWarningsOf env) hcid hsec]
  refine ⟨rfl, ?_⟩
  simp [saveWarningsOf, hsave, List.mem_append]

/-- C6 witness: a run whose cache write fails with "disk full" still returns
the granted token's authorizer and logs the save warning. -/
theorem acquire_save_failure_nonfatal_witness :
    (getKeyvaultAuthorizer "tenant" "client" "secret"
      ⟨0, none, none, .absent, .granted ⟨"fresh", 100⟩, some "disk full"⟩).result =
      .ok ⟨⟨⟨"fresh", 100⟩⟩⟩ ∧
    ("Could not save token to cache path=" ++ cachePathFor "client" ++ ": " ++ "disk full") ∈
      (getKeyvaultAuthorizer "tenant" "client" "secret"
        ⟨0, none, none, .absent, .granted ⟨"fresh", 100⟩, some "disk full"⟩).warnings :=
  acquire_save_failure_nonfatal "tenant" "client" "secret" "disk full"
    ⟨0, none, none, .absent, .granted ⟨"fresh", 100⟩, some "disk full"⟩ ⟨"fresh", 100⟩
    rfl rfl rfl rfl rfl (by decide) (by decide)

/-- C7 counterexample: a configuration in which only USER_SECRET_VERSION is
empty is rejected by parseArgs with a missing-variable violation for it,
contrary to the claim that an empty version is accepted. -/
theorem parseArgs_rejects_empty_userSecretVersion :
    parseArgs ⟨"https://example.vault", "user", "", "pass", "v2", "tenant", "client", "secret"⟩ =
      some "USER_SECRET_VERSION missing\n| need to be defined in .env or environment variable." := by
  rfl

/-- C7 amended: parseArgs accepts a configuration exactly when every checked
variable is non-empty, and the checked variables include both
USER_SECRET_VERSION and PASSWORD_SECRET_VERSION, so an empty secret version
is reported as a missing-variable violation; PASSWORD_SECRET_NAME is the
one variable never checked (its check reads userSecretName, src/main.go
line 198). -/
theorem parseArgs_none_iff (e : EnvVars) :
    parseArgs e = none ↔
      (e.vaultBaseURL ≠ "" ∧ e.userSecretName ≠ "" ∧ e.userSecretVersion ≠ "" ∧
        e.passwordSecretVersion ≠ "" ∧ e.tenantID ≠ "" ∧ e.clientID ≠ "" ∧
        e.clientSecret ≠ "") := by
  have k1 : 0 < ("VAULT_BASE_URL missing\n").length := by decide
  have k2 : 0 < ("USER_SECRET_NAME missing\n").length := by decide
  have k3 : 0 < ("USER_SECRET_VERSION missing\n").length := by decide
  have k5 : 0 < ("PASSWORD_SECRET_VERSION missing\n").length := by decide
  have k6 : 0 < ("AZ_TENANT_ID missing\n").length := by decide
  have k7 : 0 < ("AZ_CLIENT_ID missing\n").length := by decide
  have k8 : 0 < ("AZ_CLIENT_SECRET missing\n").length := by decide
  simp only [parseArgs, ite_eq_right_iff, length_appendIf, String.length_empty, gt_iff_lt]
  constructor
  · intro h
    refine ⟨?_, ?_, ?_, ?_, ?_, ?_, ?_⟩ <;>
      exact fun heq => Option.noConfusion (h (by rw [if_pos heq]; omega))
  · rintro ⟨h1, h2, h3, h4, h5, h6, h7⟩ hS
    exfalso
    rw [if_neg h1, if_neg h2, if_neg h3, if_neg h2, if_neg h4, if_neg h5, if_neg h6,
      if_neg h7] at hS
    omega

lemma fetchStep_spec (name : String) (resp : Except String SecretBundle)
    (h : getSecret resp ≠ .panicked) :
    ∃ w, fetchStep name resp = some w ∧
      ∀ e, getSecret resp = .err e →
        ("Error when trying to retrieve secret " ++ name ++ ". Error: " ++ e) ∈ w := by
  cases hg : getSecret resp with
  | panicked => exact absurd hg h
  | ok v =>
    refine ⟨[], by simp [fetchStep, hg], ?_⟩
    intro e he
    exact GoOutcome.noConfusion he
  | err e =>
    refine ⟨["Error when trying to retrieve secret " ++ name ++ ". Error: " ++ e],
      by simp [fetchStep, hg], ?_⟩
    intro e' he'
    cases he'
    simp

/-- C8: once configuration parsing and credential acquisition have
succeeded, an error from any individual secret fetch is logged as a warning
and main continues to the next one; the process exits with status 0 even
when fetches failed, and each failing fetch's warning appears in the logged
warnings. -/
theorem main_exits_zero_despite_fetch_failures (m : MainEnv)
    (hargs : parseArgs m.vars = none)
    (hauth : ∃ a, (getKeyvaultAuthorizer m.vars.tenantID m.vars.clientID m.vars.clientSecret
      m.auth).result = Except.ok a)
    (h1 : getSecret m.userSecretResp ≠ .panicked)
    (h2 : getSecret m.passwordCurrentResp ≠ .panicked)
    (h3 : getSecret m.passwordVersionResp ≠ .panicked) :
    ∃ ws, mainRun m = .exited 0 ws ∧
      (∀ e, getSecret m.userSecretResp = .err e →
        ("Error when trying to retrieve secret " ++ m.vars.userSecretName ++ ". Error: " ++ e)
          ∈ ws) ∧
      (∀ e, getSecret m.passwordCurrentResp = .err e →
        ("Error when trying to retrieve secret " ++ m.vars.passwordSecretName ++ ". Error: " ++ e)
          ∈ ws) ∧
      (∀ e, getSecret m.passwordVersionResp = .err e →
        ("Error when trying to retrieve secret " ++ m.vars.passwordSecretName ++ ". Error: " ++ e)
          ∈ ws) := by
  obtain ⟨a, ha⟩ := hauth
  obtain ⟨w1, hw1, hm1⟩ := fetchStep_spec m.vars.userSecretName m.userSecretResp h1
  obtain ⟨w2, hw2, hm2⟩ := fetchStep_spec m.vars.passwordSecretName m.passwordCurrentResp h2
  obtain ⟨w3, hw3, hm3⟩ := fetchStep_spec m.vars.passwordSecretName m.passwordVersionResp h3
  refine ⟨(getKeyvaultAuthorizer m.vars.tenantID m.vars.clientID m.vars.clientSecret
      m.auth).warnings ++ w1 ++ w2 ++ w3, ?_, ?_, ?_, ?_⟩
  · simp [mainRun, hargs, ha, hw1, hw2, hw3]
  · intro e he
    have hmem := hm1 e he
    simp [List.mem_append, hmem]
  · intro e he
    have hmem := hm2 e he
    simp [List.mem_append, hmem]
  · intro e he
    have hmem := hm3 e he
    simp [List.mem_append, hmem]

/-- C8 witness: a concrete run with valid configuration, a successful token
acquisition, two failing fetches and one successful fetch exits 0 with the
two warnings among its logs. -/
theorem main_exits_zero_despite_fetch_failures_witness :
    ∃ ws, mainRun
        ⟨⟨"https://example.vault", "user", "v1", "pass", "v2", "tenant", "client", "secret"⟩,
         ⟨0, none, none, .absent, .granted ⟨"tok", 100⟩, none⟩,
         .error "user fetch failed", .error "password fetch failed", .ok ⟨some "hunter2"⟩⟩ =
        .exited 0 ws ∧
      (∀ e, getSecret (Except.error "user fetch failed") = .err e →
        ("Error when trying to retrieve secret " ++ "user" ++ ". Error: " ++ e) ∈ ws) ∧
      (∀ e, getSecret (Except.error "password fetch failed") = .err e →
        ("Error when trying to retrieve secret " ++ "pass" ++ ". Error: " ++ e) ∈ ws) ∧
      (∀ e, getSecret (Except.ok (⟨some "hunter2"⟩ : SecretBundle)) = .err e →
        ("Error when trying to retrieve secret " ++ "pass" ++ ". Error: " ++ e) ∈ ws) :=
  main_exits_zero_despite_fetch_failures
    ⟨⟨"https://example.vault", "user", "v1", "pass", "v2", "tenant", "client", "secret"⟩,
     ⟨0, none, none, .absent, .granted ⟨"tok", 100⟩, none⟩,
     .error "user fetch failed", .error "password fetch failed", .ok ⟨some "hunter2"⟩⟩
    rfl ⟨⟨⟨⟨"tok", 100⟩⟩⟩, rfl⟩ (by decide) (by decide) (by decide)

end GoAzureKeyVault
